import Mathlib

/-!
Shallow embedding of `conv2d_transpose_tied.py`, the single source file of
the repository: the class `Conv2DTranspose_tied(Conv2D)`, a transposed 2D
convolution layer whose kernel is tied (via an axis transpose) to another
convolution layer's kernel.

The layer's computational work is delegated to the host framework, which
builds a symbolic computation graph; accordingly tensors are embedded as a
symbolic expression type `Tensor`, and the layer's methods are embedded as
functions on an explicit `Layer` state record.  Python exceptions are
embedded as `Except` errors.
-/

namespace TiedConv

/-- Padding mode, one of "valid" or "same". -/
inductive Padding
  | valid
  | same
deriving DecidableEq, Repr

/-- Channel-ordering convention. -/
inductive DataFormat
  | channels_first
  | channels_last
deriving DecidableEq, Repr

/-- One slot of a target output shape: either a static value (possibly
unknown, `none`) coming from configuration or static shape inference, or a
dynamic runtime tensor value (such as `tf.shape(inputs)[0]`) carrying the
concrete number it evaluates to at run time. -/
inductive Dim
  | static : Option Nat → Dim
  | dynamic : Nat → Dim
deriving DecidableEq, Repr

/-- A bias weight created by `self.add_weight(...)` in `build`. -/
structure BiasWeight where
  shape : List Nat
  initializer : String
  name : String
  regularizer : Option String
  constraint : Option String
deriving DecidableEq, Repr

/-- Symbolic tensor expressions: the graph nodes the layer's code can
construct (`tf.transpose`, `K.conv2d_transpose`, `tf.reshape`,
`K.bias_add`, activation application) over opaque external tensors. -/
inductive Tensor
  | var : String → Tensor
  | transpose1023 : Tensor → Tensor
  | conv2d_transpose : Tensor → Tensor → List Dim → Nat × Nat → Padding → DataFormat → Tensor
  | reshape : Tensor → List Dim → Tensor
  | bias_add : Tensor → BiasWeight → DataFormat → Tensor
  | activationApp : String → Tensor → Tensor
deriving DecidableEq, Repr

/-- Whether a symbolic tensor contains a `K.bias_add` node anywhere. -/
def Tensor.contains_bias_add : Tensor → Bool
  | .var _ => false
  | .transpose1023 t => t.contains_bias_add
  | .conv2d_transpose a b _ _ _ _ => a.contains_bias_add || b.contains_bias_add
  | .reshape t _ => t.contains_bias_add
  | .bias_add _ _ _ => true
  | .activationApp _ t => t.contains_bias_add

/-- The constructor arguments forwarded to the `Conv2D` base class
(activation/initializer/regularizer/constraint choices are kept as opaque
names). -/
structure Config where
  filters : Nat
  kernel_size : Nat × Nat
  strides : Nat × Nat
  padding : Padding
  data_format : DataFormat
  activation : Option String
  use_bias : Bool
  kernel_initializer : String
  bias_initializer : String
  kernel_regularizer : Option String
  bias_regularizer : Option String
  activity_regularizer : Option String
  kernel_constraint : Option String
  bias_constraint : Option String
deriving DecidableEq, Repr

/-- The value held in `self.transpose_output_shape` when it is not `None`:
either a sequence (list/tuple) of shape slots, or a scalar
(a non-sequence Python value, distinguished by the `isinstance` test in
`compute_output_shape`). -/
inductive OutShapeVal
  | seq : List Dim → OutShapeVal
  | scalar : Nat → OutShapeVal
deriving DecidableEq, Repr

/-- The mutable state of a `Conv2DTranspose_tied` instance.  `tied_to`
holds the tied layer's kernel tensor when a tied layer was supplied
(`none` models `tied_to=None`).  `kernel` and `bias` are `none` before
`build` has run; after `build`, `bias` is `some none` when
`use_bias=False`. -/
structure Layer where
  cfg : Config
  tied_to : Option Tensor
  transpose_output_shape : Option OutShapeVal
  kernel : Option Tensor
  bias : Option (Option BiasWeight)
  input_spec_ndim : Nat
  built : Bool
deriving DecidableEq, Repr

/-- `__init__`: forwards the configuration to the base class, then sets
`self.tied_to = tied_to` (default `None`), `self.transpose_output_shape =
output_shape` (default `None`) and `self.input_spec = InputSpec(ndim=4)`.
Construction always succeeds. -/
def init (cfg : Config) (output_shape : Option OutShapeVal)
    (tied_to : Option Tensor) : Layer :=
  { cfg := cfg
    tied_to := tied_to
    transpose_output_shape := output_shape
    kernel := none
    bias := none
    input_spec_ndim := 4
    built := false }

/-- `channel_axis` as computed in `build`: `1` for channels_first, `-1`
otherwise (a Python index, possibly negative). -/
def channel_axis (df : DataFormat) : Int :=
  if df = .channels_first then 1 else -1

/-- Python sequence indexing `l[i]` for a shape tuple whose entries are
`Option Nat` (an entry is `none` when the dimension is unresolved): a
negative index counts from the end.  Returns `none` both for an
out-of-range index and for a `None` entry; `build` only uses it on
rank-checked shapes, where the index is in range. -/
def pyGetDim (l : List (Option Nat)) (i : Int) : Option Nat :=
  (l.get? (if 0 ≤ i then i.toNat else l.length - i.natAbs)).join

/-- The exceptions `build` can raise: the two local `ValueError`s, and the
`AttributeError` from evaluating `self.tied_to.kernel` when `tied_to` is
`None`. -/
inductive BuildError
  | valueErrorRank : List (Option Nat) → BuildError
  | valueErrorChannelNone : BuildError
  | attributeErrorNoneKernel : BuildError
deriving DecidableEq, Repr

/-- Whether a `build` exception is one of the two descriptive
configuration errors the layer raises locally (as opposed to the
`AttributeError` escaping from `self.tied_to.kernel`). -/
def BuildError.isConfigError : BuildError → Bool
  | .valueErrorRank _ => true
  | .valueErrorChannelNone => true
  | .attributeErrorNoneKernel => false

/-- `build(input_shape)`: checks the rank is 4, checks the channel
dimension is defined, computes (but never uses) `kernel_shape`, sets
`self.kernel = tf.transpose(self.tied_to.kernel, (1, 0, 2, 3))`, allocates
the bias weight when `use_bias` (else sets `self.bias = None`), resets the
input spec and marks the layer built. -/
def build (st : Layer) (input_shape : List (Option Nat)) :
    Except BuildError Layer :=
  if input_shape.length ≠ 4 then
    .error (.valueErrorRank input_shape)
  else
    match pyGetDim input_shape (channel_axis st.cfg.data_format) with
    | none => .error .valueErrorChannelNone
    | some input_dim =>
      match st.tied_to with
      | none => .error .attributeErrorNoneKernel
      | some tied_kernel =>
        let _kernel_shape :=
          (st.cfg.kernel_size.1, st.cfg.kernel_size.2, st.cfg.filters, input_dim)
        .ok { st with
              kernel := some (.transpose1023 tied_kernel)
              bias := some (if st.cfg.use_bias then
                  some { shape := [st.cfg.filters]
                         initializer := st.cfg.bias_initializer
                         name := "bias"
                         regularizer := st.cfg.bias_regularizer
                         constraint := st.cfg.bias_constraint }
                else none)
              input_spec_ndim := 4
              built := true }

/-- Modelled from the spec: `conv_utils.deconv_length` is keras framework
code, not part of the repository sources.  Per the spec, for input length
L, stride S and kernel size K, "valid" padding yields output length
`(L-1)*S + K` and "same" padding yields `L*S`; an unknown (`None`) input
length stays unknown. -/
def deconv_length (dim_size : Option Nat) (stride_size kernel_size : Nat)
    (padding : Padding) : Option Nat :=
  match dim_size with
  | none => none
  | some l =>
    match padding with
    | .valid => some ((l - 1) * stride_size + kernel_size)
    | .same => some (l * stride_size)

/-- A concrete runtime input tensor: its symbolic graph node, its static
shape `inputs.get_shape().as_list()` (entries `none` when unknown), and
the runtime value of `tf.shape(inputs)[0]`. -/
structure InputTensor where
  tensor : Tensor
  static_shape : List (Option Nat)
  runtime_batch : Nat
deriving DecidableEq, Repr

/-- The exceptions `call` can raise: the `AttributeError` when the layer
was never built (`self.kernel` missing), the `TypeError` from subscripting
a scalar `transpose_output_shape`, and the `IndexError` from subscripting
a too-short shape tuple. -/
inductive CallError
  | notBuilt
  | typeErrorScalarShape
  | indexError
deriving DecidableEq, Repr

/-- The target shape `call` infers in its `transpose_output_shape is None`
branch: dynamic batch size from `K.shape(inputs)[0]`, spatial lengths via
`conv_utils.deconv_length` on the static spatial sizes (axes (2,3) for
channels_first, (1,2) otherwise), filter count from configuration — the
filters slot at index 1 for channels_first, last otherwise. -/
def inferred_shape (st : Layer) (x : InputTensor) : List Dim :=
  let hw : Nat × Nat :=
    if st.cfg.data_format = .channels_first then (2, 3) else (1, 2)
  let height := (x.static_shape.get? hw.1).join
  let width := (x.static_shape.get? hw.2).join
  let out_height :=
    deconv_length height st.cfg.strides.1 st.cfg.kernel_size.1 st.cfg.padding
  let out_width :=
    deconv_length width st.cfg.strides.2 st.cfg.kernel_size.2 st.cfg.padding
  if st.cfg.data_format = .channels_first then
    [.dynamic x.runtime_batch, .static (some st.cfg.filters),
     .static out_height, .static out_width]
  else
    [.dynamic x.runtime_batch, .static out_height, .static out_width,
     .static (some st.cfg.filters)]

/-- The reordering `shape = (shape[0], shape[2], shape[3], shape[1])`
that `call` applies to a stored fixed shape under channels_first (a
too-short tuple raises `IndexError`); under channels_last the shape is
used as stored. -/
def reorder_fixed_shape (df : DataFormat) (s : List Dim) :
    Except CallError (List Dim) :=
  if df = .channels_first then
    match s.get? 0, s.get? 2, s.get? 3, s.get? 1 with
    | some a, some c, some d, some b => .ok [a, c, d, b]
    | _, _, _, _ => .error .indexError
  else .ok s

/-- The `if shape[0] is None` step of `call`'s fixed-shape branch: a `None`
batch slot is replaced by the runtime batch size
`tf.shape(inputs)[0]` (and the tuple rebuilt via `tf.stack`); an empty
tuple raises `IndexError` at `shape[0]`. -/
def replace_none_batch (runtime_batch : Nat) (sh : List Dim) :
    Except CallError (List Dim) :=
  match sh.get? 0 with
  | none => .error .indexError
  | some (.static none) => .ok (.dynamic runtime_batch :: sh.tail)
  | some _ => .ok sh

/-- The first half of `call`: resolving the target `shape` handed to
`K.conv2d_transpose`.  When `self.transpose_output_shape` is `None`, the
output shape is inferred from the input's static spatial sizes and the
dynamic batch size and cached into `self.transpose_output_shape` (the one
state mutation of the class).  Otherwise the stored shape is used: under
channels_first it is reordered `(shape[0], shape[2], shape[3], shape[1])`,
and a `None` batch slot is replaced by the runtime batch size.  A stored
scalar shape raises `TypeError` when subscripted. -/
def resolve_shape (st : Layer) (x : InputTensor) :
    Except CallError (List Dim × Layer) :=
  match st.transpose_output_shape with
  | none =>
    let cached := inferred_shape st x
    .ok (cached, { st with transpose_output_shape := some (.seq cached) })
  | some (.scalar _) => .error .typeErrorScalarShape
  | some (.seq s) =>
    match reorder_fixed_shape st.cfg.data_format s with
    | .error e => .error e
    | .ok sh =>
      match replace_none_batch x.runtime_batch sh with
      | .error e => .error e
      | .ok sh2 => .ok (sh2, st)

/-- The output graph `call` constructs once the target shape is resolved:
`K.conv2d_transpose(x, kernel, shape, strides, padding, data_format)`,
reshaped to the target shape; the `K.bias_add` step of the source is
commented out and so absent; the configured activation, when present, is
applied last. -/
def call_output (st : Layer) (x : InputTensor) (kern : Tensor)
    (shape : List Dim) : Tensor :=
  let raw := Tensor.conv2d_transpose x.tensor kern shape st.cfg.strides
    st.cfg.padding st.cfg.data_format
  let reshaped := Tensor.reshape raw shape
  match st.cfg.activation with
  | some act => Tensor.activationApp act reshaped
  | none => reshaped

/-- `call(inputs)`: resolves the target shape, then builds the output
graph.  Returns the output tensor, the shape that was handed to the
transposed-convolution primitive, and the (possibly updated) layer
state. -/
def call (st : Layer) (x : InputTensor) :
    Except CallError (Tensor × List Dim × Layer) :=
  match resolve_shape st x with
  | .error e => .error e
  | .ok (shape, st') =>
    match st'.kernel with
    | none => .error .notBuilt
    | some kern => .ok (call_output st' x kern shape, shape, st')

/-- The exceptions `compute_output_shape` can raise: the `IndexError` from
assigning `output_shape[3]` on a too-short list, and the `TypeError` from
the final `tuple(output_shape)` when the stored shape is a scalar. -/
inductive ShapeQueryError
  | indexError
  | typeErrorScalarTuple
deriving DecidableEq, Repr

/-- `compute_output_shape(input_shape)`: when `self.transpose_output_shape`
is `None`, copies the input shape, overwrites the channel slot with
`self.filters` and each spatial slot with `conv_utils.deconv_length` of
its value, and returns the tuple.  Otherwise returns
`tuple(self.transpose_output_shape)` — for a sequence this is the stored
shape itself; a scalar is not iterable, so `tuple` raises `TypeError`
(the `isinstance` test distinguishes the two cases but both branches
perform the same assignment). -/
def compute_output_shape (st : Layer) (input_shape : List (Option Nat)) :
    Except ShapeQueryError (List Dim) :=
  match st.transpose_output_shape with
  | none =>
    if input_shape.length < 4 then .error .indexError
    else
      let axes : Nat × Nat × Nat :=
        if st.cfg.data_format = .channels_first then (1, 2, 3) else (3, 1, 2)
      let o1 := input_shape.set axes.1 (some st.cfg.filters)
      let o2 := o1.set axes.2.1
        (deconv_length ((o1.get? axes.2.1).join) st.cfg.strides.1
          st.cfg.kernel_size.1 st.cfg.padding)
      let o3 := o2.set axes.2.2
        (deconv_length ((o2.get? axes.2.2).join) st.cfg.strides.2
          st.cfg.kernel_size.2 st.cfg.padding)
      .ok (o3.map Dim.static)
  | some (.seq s) => .ok s
  | some (.scalar _) => .error .typeErrorScalarTuple

/-- The classes relevant to the `super` call in `get_config`:
`Conv2DTranspose_tied` derives from `Conv2D`; keras' `Conv2DTranspose`
also derives from `Conv2D` but is not an ancestor of
`Conv2DTranspose_tied`. -/
inductive PyClass
  | conv2DTransposeTied
  | conv2DTranspose
  | conv2D
  | baseLayer
deriving DecidableEq, Repr

/-- Method-resolution order of each class. -/
def mro : PyClass → List PyClass
  | .conv2DTransposeTied => [.conv2DTransposeTied, .conv2D, .baseLayer]
  | .conv2DTranspose => [.conv2DTranspose, .conv2D, .baseLayer]
  | .conv2D => [.conv2D, .baseLayer]
  | .baseLayer => [.baseLayer]

/-- Python's subtype test, as used by `super(C, obj)`: `obj`'s class must
have `C` in its method-resolution order, else `super` raises
`TypeError`. -/
def isSubtypeOf (c target : PyClass) : Bool :=
  (mro c).contains target

/-- A value stored in a configuration mapping. -/
inductive ConfigVal
  | natVal : Nat → ConfigVal
  | pairVal : Nat × Nat → ConfigVal
  | strVal : String → ConfigVal
  | optStrVal : Option String → ConfigVal
  | boolVal : Bool → ConfigVal
  | paddingVal : Padding → ConfigVal
  | dfVal : DataFormat → ConfigVal
  | layerRef : Option Tensor → ConfigVal
  | shapeVal : Option OutShapeVal → ConfigVal
deriving DecidableEq, Repr

/-- Modelled from the spec: the base convolution layer's own configuration
entries (keras `Conv2D.get_config`, not part of the repository sources) —
one entry per constructor argument forwarded to the base class. -/
def base_get_config (cfg : Config) : List (String × ConfigVal) :=
  [("filters", .natVal cfg.filters),
   ("kernel_size", .pairVal cfg.kernel_size),
   ("strides", .pairVal cfg.strides),
   ("padding", .paddingVal cfg.padding),
   ("data_format", .dfVal cfg.data_format),
   ("activation", .optStrVal cfg.activation),
   ("use_bias", .boolVal cfg.use_bias),
   ("kernel_initializer", .strVal cfg.kernel_initializer),
   ("bias_initializer", .strVal cfg.bias_initializer),
   ("kernel_regularizer", .optStrVal cfg.kernel_regularizer),
   ("bias_regularizer", .optStrVal cfg.bias_regularizer),
   ("activity_regularizer", .optStrVal cfg.activity_regularizer),
   ("kernel_constraint", .optStrVal cfg.kernel_constraint),
   ("bias_constraint", .optStrVal cfg.bias_constraint)]

/-- The exception `get_config` raises: `TypeError` from an invalid
`super(type, obj)` pair. -/
inductive GetConfigError
  | typeErrorBadSuper
deriving DecidableEq, Repr

/-- `get_config`: builds the local mapping with the `tied_to` reference
and the stored output shape, then evaluates
`super(Conv2DTranspose, self).get_config()`.  `self` is an instance of
`Conv2DTranspose_tied`, so Python first checks that class against
`Conv2DTranspose`. -/
def get_config (st : Layer) :
    Except GetConfigError (List (String × ConfigVal)) :=
  let config : List (String × ConfigVal) :=
    [("tied_to", .layerRef st.tied_to),
     ("output_shape", .shapeVal st.transpose_output_shape)]
  if isSubtypeOf .conv2DTransposeTied .conv2DTranspose then
    .ok (base_get_config st.cfg ++ config)
  else
    .error .typeErrorBadSuper

/-! ## Sample concrete values (used by witnesses) -/

/-- A concrete configuration: 8 filters, 3×3 kernel, stride 1, "valid"
padding, channels_last, bias enabled, no activation. -/
def sampleConfig : Config :=
  { filters := 8
    kernel_size := (3, 3)
    strides := (1, 1)
    padding := .valid
    data_format := .channels_last
    activation := none
    use_bias := true
    kernel_initializer := "glorot_uniform"
    bias_initializer := "zeros"
    kernel_regularizer := none
    bias_regularizer := none
    activity_regularizer := none
    kernel_constraint := none
    bias_constraint := none }

/-- The tied layer's kernel, an opaque external tensor. -/
def sampleKernel : Tensor := .var "tied_kernel"

/-- A concrete input: static shape (None, 10, 10, 8), runtime batch 2. -/
def sampleInput : InputTensor :=
  { tensor := .var "inputs"
    static_shape := [none, some 10, some 10, some 8]
    runtime_batch := 2 }

/-- The state `build` produces from `sampleConfig` on input shape
(None, 10, 10, 8). -/
def sampleBuilt : Layer :=
  { cfg := sampleConfig
    tied_to := some sampleKernel
    transpose_output_shape := none
    kernel := some (.transpose1023 sampleKernel)
    bias := some (some { shape := [8], initializer := "zeros", name := "bias",
                         regularizer := none, constraint := none })
    input_spec_ndim := 4
    built := true }

/-- The shape the first `call` on `sampleBuilt`/`sampleInput` infers and
caches: batch 2 (dynamic), spatial (10-1)*1+3 = 12, 8 filters. -/
def sampleCachedShape : List Dim :=
  [.dynamic 2, .static (some 12), .static (some 12), .static (some 8)]

/-- The state after that first `call`. -/
def sampleCalled : Layer :=
  { sampleBuilt with transpose_output_shape := some (.seq sampleCachedShape) }

/-- The output tensor of that first `call` (no activation configured). -/
def sampleOutput : Tensor :=
  .reshape (.conv2d_transpose (.var "inputs") (.transpose1023 sampleKernel)
      sampleCachedShape (1, 1) .valid .channels_last)
    sampleCachedShape

/-- A built channels_first layer with the fixed output shape
(None, 8, 12, 12) configured. -/
def sampleFixedCF : Layer :=
  { cfg := { sampleConfig with data_format := .channels_first }
    tied_to := some sampleKernel
    transpose_output_shape := some (.seq [Dim.static none, Dim.static (some 8),
      Dim.static (some 12), Dim.static (some 12)])
    kernel := some (.transpose1023 sampleKernel)
    bias := some (some { shape := [8], initializer := "zeros", name := "bias",
                         regularizer := none, constraint := none })
    input_spec_ndim := 4
    built := true }

/-- The sample configuration with channels_first ordering. -/
def sampleConfigCF : Config :=
  { sampleConfig with data_format := .channels_first }

/-- A built channels_first layer with no fixed output shape. -/
def sampleBuiltCF : Layer :=
  { cfg := sampleConfigCF
    tied_to := some sampleKernel
    transpose_output_shape := none
    kernel := some (.transpose1023 sampleKernel)
    bias := some (some { shape := [8], initializer := "zeros", name := "bias",
                         regularizer := none, constraint := none })
    input_spec_ndim := 4
    built := true }

/-- A concrete channels_first input: static shape (None, 8, 10, 10),
runtime batch 2. -/
def sampleInputCF : InputTensor :=
  { tensor := .var "inputs"
    static_shape := [none, some 8, some 10, some 10]
    runtime_batch := 2 }

/-- The shape the first channels_first call infers and caches:
(batch, filters, height, width). -/
def sampleShapeCF1 : List Dim :=
  [.dynamic 2, .static (some 8), .static (some 12), .static (some 12)]

/-- The permutation (batch, height, width, filters) that later calls hand
the primitive. -/
def sampleShapeCF2 : List Dim :=
  [.dynamic 2, .static (some 12), .static (some 12), .static (some 8)]

/-- The channels_first layer state after the first call. -/
def sampleCalledCF : Layer :=
  { sampleBuiltCF with transpose_output_shape := some (.seq sampleShapeCF1) }

/-- A freshly constructed layer whose fixed output shape is a scalar. -/
def sampleScalarFixed : Layer :=
  init sampleConfig (some (.scalar 12)) (some sampleKernel)

/-! ## Helper lemmas -/

/-- A successful `build` forces a tied layer to be present and produces
exactly the state the source assigns: the transposed tied kernel, the
bias weight (or `None`), the refreshed input spec, `built = True`. -/
theorem build_ok_elim (st : Layer) (ish : List (Option Nat)) (st' : Layer)
    (h : build st ish = .ok st') :
    ∃ tk, st.tied_to = some tk ∧
      st' = { st with
              kernel := some (.transpose1023 tk)
              bias := some (if st.cfg.use_bias then
                  some { shape := [st.cfg.filters]
                         initializer := st.cfg.bias_initializer
                         name := "bias"
                         regularizer := st.cfg.bias_regularizer
                         constraint := st.cfg.bias_constraint }
                else none)
              input_spec_ndim := 4
              built := true } := by
  unfold build at h
  split at h
  · exact absurd h (by simp)
  · cases hc : pyGetDim ish (channel_axis st.cfg.data_format) <;> rw [hc] at h
    · exact absurd h (by simp)
    · cases ht : st.tied_to <;> rw [ht] at h
      · exact absurd h (by simp)
      · simp only [Except.ok.injEq] at h
        exact ⟨_, rfl, h.symm⟩

/-- `resolve_shape` never touches any field other than
`transpose_output_shape`. -/
theorem resolve_shape_fields (st : Layer) (x : InputTensor) (sh : List Dim)
    (st' : Layer) (h : resolve_shape st x = .ok (sh, st')) :
    st'.cfg = st.cfg ∧ st'.kernel = st.kernel ∧ st'.bias = st.bias ∧
      st'.tied_to = st.tied_to := by
  unfold resolve_shape at h
  split at h
  · simp only [Except.ok.injEq, Prod.mk.injEq] at h
    rw [← h.2]
    exact ⟨rfl, rfl, rfl, rfl⟩
  · exact absurd h (by simp)
  · split at h
    · exact absurd h (by simp)
    · split at h
      · exact absurd h (by simp)
      · simp only [Except.ok.injEq, Prod.mk.injEq] at h
        rw [← h.2]
        exact ⟨rfl, rfl, rfl, rfl⟩

/-- A successful `call` decomposes into a successful `resolve_shape` whose
shape was handed to the primitive, a present kernel, and the output graph
the source constructs. -/
theorem call_ok_elim (st : Layer) (x : InputTensor) (out : Tensor)
    (sh : List Dim) (st' : Layer) (h : call st x = .ok (out, sh, st')) :
    resolve_shape st x = .ok (sh, st') ∧
    ∃ kern, st'.kernel = some kern ∧ out = call_output st' x kern sh := by
  unfold call at h
  split at h
  · exact absurd h (by simp)
  · rename_i sh0 st0 hres
    split at h
    · exact absurd h (by simp)
    · rename_i kern hk
      simp only [Except.ok.injEq, Prod.mk.injEq] at h
      obtain ⟨hout, hsh, hst⟩ := h
      subst hsh hst
      exact ⟨hres, kern, hk, hout.symm⟩

/-- Converse direction: a successful `resolve_shape` plus a present kernel
determine `call`'s result. -/
theorem call_of_resolve (st : Layer) (x : InputTensor) (sh : List Dim)
    (st' : Layer) (kern : Tensor) (hres : resolve_shape st x = .ok (sh, st'))
    (hk : st'.kernel = some kern) :
    call st x = .ok (call_output st' x kern sh, sh, st') := by
  simp only [call, hres, hk]

/-- `resolve_shape` reads nothing from the bias field: changing it only
changes the bias field carried through in the returned state. -/
theorem resolve_shape_bias (st : Layer) (b : Option (Option BiasWeight))
    (x : InputTensor) :
    resolve_shape { st with bias := b } x =
      (resolve_shape st x).map fun p => (p.1, { p.2 with bias := b }) := by
  cases hos : st.transpose_output_shape with
  | none => simp [resolve_shape, hos, inferred_shape, Except.map]
  | some v =>
    cases v with
    | scalar n => simp [resolve_shape, hos, Except.map]
    | seq s =>
      simp only [resolve_shape, hos]
      cases hro : reorder_fixed_shape st.cfg.data_format s with
      | error e => simp [Except.map]
      | ok sh =>
        cases hrb : replace_none_batch x.runtime_batch sh with
        | error e => simp [Except.map, hrb]
        | ok sh2 => simp [Except.map, hrb, hos]

/-- `call` reads nothing from the bias field: the output tensor and the
shape handed to the primitive are unchanged when the bias is replaced. -/
theorem call_bias_irrelevant (st : Layer) (b : Option (Option BiasWeight))
    (x : InputTensor) (out : Tensor) (sh : List Dim) (st'' : Layer)
    (h : call st x = .ok (out, sh, st'')) :
    call { st with bias := b } x = .ok (out, sh, { st'' with bias := b }) := by
  unfold call at h ⊢
  rw [resolve_shape_bias]
  cases hres : resolve_shape st x <;> rw [hres] at h
  · exact absurd h (by simp)
  · rename_i p
    obtain ⟨sh0, st0⟩ := p
    simp only [Except.map]
    cases hk : st0.kernel <;> simp only [hk] at h ⊢
    · exact absurd h (by simp)
    · simp only [Except.ok.injEq, Prod.mk.injEq] at h ⊢
      obtain ⟨hout, hsh, hst⟩ := h
      subst hsh hst
      exact ⟨by rw [← hout]; rfl, rfl, by rw [hk]⟩

/-! ## Claim theorems -/

/-- C1: after a successful `build` of a freshly constructed layer tied to
kernel `tk`, the layer's kernel is exactly `tf.transpose(tk, (1,0,2,3))`
(the tied kernel with its first two axes exchanged), and any successful
later forward invocation leaves the kernel unchanged (the shape query and
serialization are read-only on the state by construction). -/
theorem c1_kernel_tied_once (cfg : Config) (os : Option OutShapeVal)
    (tk : Tensor) (ish : List (Option Nat)) (st' : Layer)
    (hb : build (init cfg os (some tk)) ish = .ok st') :
    st'.kernel = some (Tensor.transpose1023 tk) ∧
    ∀ x out sh st'', call st' x = .ok (out, sh, st'') →
      st''.kernel = some (Tensor.transpose1023 tk) := by
  obtain ⟨tk', htk, hst⟩ := build_ok_elim _ _ _ hb
  simp only [init, Option.some.injEq] at htk
  subst htk
  subst hst
  refine ⟨rfl, ?_⟩
  intro x out sh st'' hc
  obtain ⟨hres, -⟩ := call_ok_elim _ _ _ _ _ hc
  obtain ⟨-, hker, -, -⟩ := resolve_shape_fields _ _ _ _ hres
  exact hker

/-- C1 witness: at the sample configuration, build then a first call; the
kernel is the transposed tied kernel in both resulting states. -/
theorem c1_witness :
    sampleBuilt.kernel = some (Tensor.transpose1023 sampleKernel) ∧
    sampleCalled.kernel = some (Tensor.transpose1023 sampleKernel) :=
  ⟨(c1_kernel_tied_once sampleConfig none sampleKernel
      [none, some 10, some 10, some 8] sampleBuilt rfl).1,
   (c1_kernel_tied_once sampleConfig none sampleKernel
      [none, some 10, some 10, some 8] sampleBuilt rfl).2
     sampleInput sampleOutput sampleCachedShape sampleCalled rfl⟩

/-- C3: `build` raises the rank `ValueError` exactly on non-rank-4 shapes,
raises the channel `ValueError` on rank-4 shapes with an unresolved
channel dimension, and for rank-4 shapes with a known channel dimension
whatever error may still escape (the `AttributeError` of a missing tied
layer) is not one of the two local configuration errors.  In the error
cases no weight or bias assignment happens: the state is not returned. -/
theorem c3_build_errors (cfg : Config) (os : Option OutShapeVal)
    (t : Option Tensor) (ish : List (Option Nat)) :
    (ish.length ≠ 4 →
      build (init cfg os t) ish = .error (.valueErrorRank ish)) ∧
    (ish.length = 4 →
      pyGetDim ish (channel_axis cfg.data_format) = none →
      build (init cfg os t) ish = .error .valueErrorChannelNone) ∧
    (ish.length = 4 →
      ∀ d, pyGetDim ish (channel_axis cfg.data_format) = some d →
      ∀ e, build (init cfg os t) ish = .error e →
        e.isConfigError = false) := by
  refine ⟨?_, ?_, ?_⟩
  · intro hlen
    unfold build
    rw [if_pos hlen]
  · intro hlen hch
    unfold build
    rw [if_neg (by simp [hlen])]
    simp only [init] at hch ⊢
    rw [hch]
  · intro hlen d hch e he
    unfold build at he
    rw [if_neg (by simp [hlen])] at he
    simp only [init] at hch he
    rw [hch] at he
    cases t
    · simp only [Except.error.injEq] at he
      rw [← he]
      rfl
    · exact absurd he (by simp)

/-- C3 witness: a rank-3 shape raises the rank error; a rank-4 shape with
`None` channel raises the channel error; with a known channel dimension
the escaping error (missing tied layer) is not a configuration error. -/
theorem c3_witness :
    build (init sampleConfig none (some sampleKernel)) [some 1, some 2, some 3] =
      .error (.valueErrorRank [some 1, some 2, some 3]) ∧
    build (init sampleConfig none (some sampleKernel))
        [some 1, some 2, some 3, none] = .error .valueErrorChannelNone ∧
    BuildError.isConfigError .attributeErrorNoneKernel = false :=
  ⟨(c3_build_errors sampleConfig none (some sampleKernel)
      [some 1, some 2, some 3]).1 (by decide),
   (c3_build_errors sampleConfig none (some sampleKernel)
      [some 1, some 2, some 3, none]).2.1 rfl rfl,
   (c3_build_errors sampleConfig none none
      [none, some 10, some 10, some 8]).2.2 rfl 8 rfl
     .attributeErrorNoneKernel rfl⟩

/-- C4: a successful `build` allocates, when bias usage is enabled, a bias
weight of shape `(filters,)` with the configured initializer, regularizer
and constraint (and sets the bias to `None` otherwise); yet the tensor a
forward invocation returns is the reshaped transposed-convolution result,
with the activation applied when configured — it adds no `bias_add` node
(so it contains none whenever input and tied kernel contain none), and it
is unchanged when the stored bias is replaced by anything else. -/
theorem c4_bias_allocated_never_applied (cfg : Config) (os : Option OutShapeVal)
    (tk : Tensor) (ish : List (Option Nat)) (st' : Layer)
    (hb : build (init cfg os (some tk)) ish = .ok st') :
    st'.bias = some (if cfg.use_bias then
        some { shape := [cfg.filters], initializer := cfg.bias_initializer,
               name := "bias", regularizer := cfg.bias_regularizer,
               constraint := cfg.bias_constraint }
      else none) ∧
    ∀ x out sh st'', call st' x = .ok (out, sh, st'') →
      (x.tensor.contains_bias_add = false → tk.contains_bias_add = false →
        out.contains_bias_add = false) ∧
      out = (match cfg.activation with
        | some act => Tensor.activationApp act (Tensor.reshape
            (Tensor.conv2d_transpose x.tensor (Tensor.transpose1023 tk) sh
              cfg.strides cfg.padding cfg.data_format) sh)
        | none => Tensor.reshape
            (Tensor.conv2d_transpose x.tensor (Tensor.transpose1023 tk) sh
              cfg.strides cfg.padding cfg.data_format) sh) ∧
      ∀ b, call { st' with bias := b } x =
        .ok (out, sh, { st'' with bias := b }) := by
  obtain ⟨tk', htk, hst⟩ := build_ok_elim _ _ _ hb
  simp only [init, Option.some.injEq] at htk
  subst htk
  subst hst
  refine ⟨rfl, ?_⟩
  intro x out sh st'' hc
  obtain ⟨hres, kern, hk, hout⟩ := call_ok_elim _ _ _ _ _ hc
  obtain ⟨hcfg, hker, -, -⟩ := resolve_shape_fields _ _ _ _ hres
  have hkern : kern = Tensor.transpose1023 tk :=
    Option.some.inj (hk.symm.trans hker)
  subst hkern
  refine ⟨?_, ?_, ?_⟩
  · intro hx htk0
    rw [hout]
    unfold call_output
    cases hact : st''.cfg.activation <;>
      simp [hact, Tensor.contains_bias_add, hx, htk0]
  · rw [hout]
    unfold call_output
    rw [hcfg]
    rfl
  · intro b
    exact call_bias_irrelevant _ b x out sh st'' hc

/-- C4 witness: at the sample configuration (bias enabled, no activation)
the built state carries the allocated bias weight, and the first call's
output contains no bias addition. -/
theorem c4_witness :
    sampleBuilt.bias = some (if sampleConfig.use_bias then
        some { shape := [sampleConfig.filters]
               initializer := sampleConfig.bias_initializer
               name := "bias"
               regularizer := sampleConfig.bias_regularizer
               constraint := sampleConfig.bias_constraint }
      else none) ∧
    sampleOutput.contains_bias_add = false :=
  ⟨(c4_bias_allocated_never_applied sampleConfig none sampleKernel
      [none, some 10, some 10, some 8] sampleBuilt rfl).1,
   ((c4_bias_allocated_never_applied sampleConfig none sampleKernel
      [none, some 10, some 10, some 8] sampleBuilt rfl).2
     sampleInput sampleOutput sampleCachedShape sampleCalled rfl).1 rfl rfl⟩

/-- C5: for a layer with a fixed output shape `(a, b, c, d)` configured
and channels_first data format, every invocation hands the
transposed-convolution primitive the channel-last reordering
`(a, c, d, b)` of that shape — with the batch slot replaced by the
runtime batch size of the current input when it is unresolved — and
leaves the layer state unchanged. -/
theorem c5_fixed_shape_reordered (st : Layer) (kern : Tensor)
    (x : InputTensor) (a b c d : Dim)
    (hdf : st.cfg.data_format = .channels_first)
    (hos : st.transpose_output_shape = some (.seq [a, b, c, d]))
    (hk : st.kernel = some kern) :
    call st x = .ok
      (call_output st x kern
        ((if a = Dim.static none then Dim.dynamic x.runtime_batch else a) ::
          [c, d, b]),
       (if a = Dim.static none then Dim.dynamic x.runtime_batch else a) ::
         [c, d, b],
       st) := by
  have hro : reorder_fixed_shape st.cfg.data_format [a, b, c, d] =
      .ok [a, c, d, b] := by
    rw [hdf]; rfl
  have hres : resolve_shape st x = .ok
      ((if a = Dim.static none then Dim.dynamic x.runtime_batch else a) ::
        [c, d, b], st) := by
    simp only [resolve_shape, hos, hro]
    cases a with
    | dynamic n => simp [replace_none_batch]
    | static o =>
      cases o with
      | none => simp [replace_none_batch]
      | some m => simp [replace_none_batch]
  exact call_of_resolve st x _ st kern hres hk

/-- C5 witness: a channels_first layer with fixed shape
(None, 8, 12, 12); the primitive receives (2, 12, 12, 8) with the batch
taken from the input. -/
theorem c5_witness :
    call sampleFixedCF sampleInput = .ok
      (call_output sampleFixedCF sampleInput (Tensor.transpose1023 sampleKernel)
        [Dim.dynamic 2, Dim.static (some 12), Dim.static (some 12),
         Dim.static (some 8)],
       [Dim.dynamic 2, Dim.static (some 12), Dim.static (some 12),
        Dim.static (some 8)],
       sampleFixedCF) := by
  have h := c5_fixed_shape_reordered sampleFixedCF
    (Tensor.transpose1023 sampleKernel) sampleInput
    (Dim.static none) (Dim.static (some 8)) (Dim.static (some 12))
    (Dim.static (some 12)) rfl rfl rfl
  simpa using h

/-- C6: `get_config` never returns the merged configuration mapping the
docstring intends: `super(Conv2DTranspose, self)` is evaluated with a
receiver of class `Conv2DTranspose_tied`, which derives from `Conv2D` and
not from `Conv2DTranspose`, so Python raises `TypeError` for every layer
instance. -/
theorem c6_get_config_type_error (st : Layer) :
    get_config st = .error .typeErrorBadSuper := rfl

/-- C9: constructing the layer without a tied layer succeeds (the
parameter defaults to `None` and `__init__` stores it unchecked); `build`
on a well-formed rank-4 shape with a known channel dimension then fails by
dereferencing `None.kernel` — an `AttributeError`, not one of the two
local configuration errors. -/
theorem c9_missing_tied_layer (cfg : Config) (os : Option OutShapeVal)
    (ish : List (Option Nat)) (d : Nat) (hlen : ish.length = 4)
    (hch : pyGetDim ish (channel_axis cfg.data_format) = some d) :
    (init cfg os none).tied_to = none ∧
    build (init cfg os none) ish = .error .attributeErrorNoneKernel ∧
    BuildError.isConfigError BuildError.attributeErrorNoneKernel = false := by
  refine ⟨rfl, ?_, rfl⟩
  unfold build
  rw [if_neg (by simp [hlen])]
  simp only [init] at hch ⊢
  rw [hch]

/-- C9 witness: at the sample configuration with no tied layer, and input
shape (None, 10, 10, 8). -/
theorem c9_witness :
    (init sampleConfig none none).tied_to = none ∧
    build (init sampleConfig none none) [none, some 10, some 10, some 8] =
      .error .attributeErrorNoneKernel ∧
    BuildError.isConfigError BuildError.attributeErrorNoneKernel = false :=
  c9_missing_tied_layer sampleConfig none [none, some 10, some 10, some 8] 8
    rfl rfl

/-- C2: for a layer with no fixed output shape, the inferred output
spatial length on each axis — both in the shape the forward invocation
hands the transposed-convolution primitive and in the static output-shape
query — is `(L-1)*S + K` under "valid" padding and `L*S` under "same"
padding, where L is the input spatial length, S the stride and K the
kernel size on that axis. -/
theorem c2_inferred_lengths (st : Layer) (x : InputTensor) (Lh Lw : Nat)
    (i0 i1 i2 i3 : Option Nat) (Mh Mw : Nat)
    (hns : st.transpose_output_shape = none)
    (hx1 : (x.static_shape.get?
      (if st.cfg.data_format = .channels_first then 2 else 1)).join = some Lh)
    (hx2 : (x.static_shape.get?
      (if st.cfg.data_format = .channels_first then 3 else 2)).join = some Lw)
    (hq1 : (if st.cfg.data_format = .channels_first then i2 else i1) = some Mh)
    (hq2 : (if st.cfg.data_format = .channels_first then i3 else i2) = some Mw) :
    (∀ out sh st', call st x = .ok (out, sh, st') →
      sh = (if st.cfg.data_format = .channels_first then
        [Dim.dynamic x.runtime_batch, Dim.static (some st.cfg.filters),
         Dim.static (some (if st.cfg.padding = .valid then
           (Lh - 1) * st.cfg.strides.1 + st.cfg.kernel_size.1
           else Lh * st.cfg.strides.1)),
         Dim.static (some (if st.cfg.padding = .valid then
           (Lw - 1) * st.cfg.strides.2 + st.cfg.kernel_size.2
           else Lw * st.cfg.strides.2))]
      else
        [Dim.dynamic x.runtime_batch,
         Dim.static (some (if st.cfg.padding = .valid then
           (Lh - 1) * st.cfg.strides.1 + st.cfg.kernel_size.1
           else Lh * st.cfg.strides.1)),
         Dim.static (some (if st.cfg.padding = .valid then
           (Lw - 1) * st.cfg.strides.2 + st.cfg.kernel_size.2
           else Lw * st.cfg.strides.2)),
         Dim.static (some st.cfg.filters)])) ∧
    compute_output_shape st [i0, i1, i2, i3] =
      .ok (if st.cfg.data_format = .channels_first then
        [Dim.static i0, Dim.static (some st.cfg.filters),
         Dim.static (some (if st.cfg.padding = .valid then
           (Mh - 1) * st.cfg.strides.1 + st.cfg.kernel_size.1
           else Mh * st.cfg.strides.1)),
         Dim.static (some (if st.cfg.padding = .valid then
           (Mw - 1) * st.cfg.strides.2 + st.cfg.kernel_size.2
           else Mw * st.cfg.strides.2))]
      else
        [Dim.static i0,
         Dim.static (some (if st.cfg.padding = .valid then
           (Mh - 1) * st.cfg.strides.1 + st.cfg.kernel_size.1
           else Mh * st.cfg.strides.1)),
         Dim.static (some (if st.cfg.padding = .valid then
           (Mw - 1) * st.cfg.strides.2 + st.cfg.kernel_size.2
           else Mw * st.cfg.strides.2)),
         Dim.static (some st.cfg.filters)]) := by
  constructor
  · intro out sh st' hc
    obtain ⟨hres, -⟩ := call_ok_elim _ _ _ _ _ hc
    simp only [resolve_shape, hns, Except.ok.injEq, Prod.mk.injEq] at hres
    obtain ⟨hsh, -⟩ := hres
    subst hsh
    cases hdf : st.cfg.data_format <;> cases hp : st.cfg.padding <;>
      simp [hdf, hp, inferred_shape, deconv_length] at hx1 hx2 ⊢ <;>
      simp [hx1, hx2]
  · cases hdf : st.cfg.data_format <;> cases hp : st.cfg.padding <;>
      simp [hdf, hp] at hq1 hq2 <;>
      simp [compute_output_shape, hns, hdf, hq1, hq2, hp, deconv_length,
        List.set]

/-- C2 witness: at the sample layer ("valid" padding, stride 1, kernel 3,
channels_last) with spatial input length 10 the inferred length is
(10-1)*1+3 = 12 on both axes, in the call path and in the query path. -/
theorem c2_witness :
    sampleCachedShape = [Dim.dynamic 2, Dim.static (some 12),
      Dim.static (some 12), Dim.static (some 8)] ∧
    compute_output_shape sampleBuilt [none, some 10, some 10, some 8] =
      .ok [Dim.static none, Dim.static (some 12), Dim.static (some 12),
        Dim.static (some 8)] := by
  have h := c2_inferred_lengths sampleBuilt sampleInput 10 10
    none (some 10) (some 10) (some 8) 10 10 rfl rfl rfl rfl rfl
  exact ⟨by simpa using h.1 sampleOutput sampleCachedShape sampleCalled rfl,
    by simpa using h.2⟩

/-- C7 amended: the static output-shape query returns, when no fixed shape
is stored, the input shape with the channel slot replaced by the filter
count and each spatial slot replaced by the deconvolution-length result;
when the stored shape is a sequence, that sequence verbatim; but when the
stored shape is a scalar, a `TypeError` (the final `tuple()` conversion
fails on a non-iterable), not the configured shape. -/
theorem c7_output_shape_query (st : Layer) (ish : List (Option Nat))
    (i0 i1 i2 i3 : Option Nat) :
    (st.transpose_output_shape = none → ish = [i0, i1, i2, i3] →
      compute_output_shape st ish =
        .ok (if st.cfg.data_format = .channels_first then
          [Dim.static i0, Dim.static (some st.cfg.filters),
           Dim.static (deconv_length i2 st.cfg.strides.1
             st.cfg.kernel_size.1 st.cfg.padding),
           Dim.static (deconv_length i3 st.cfg.strides.2
             st.cfg.kernel_size.2 st.cfg.padding)]
        else
          [Dim.static i0,
           Dim.static (deconv_length i1 st.cfg.strides.1
             st.cfg.kernel_size.1 st.cfg.padding),
           Dim.static (deconv_length i2 st.cfg.strides.2
             st.cfg.kernel_size.2 st.cfg.padding),
           Dim.static (some st.cfg.filters)])) ∧
    (∀ s, st.transpose_output_shape = some (.seq s) →
      compute_output_shape st ish = .ok s) ∧
    (∀ n, st.transpose_output_shape = some (.scalar n) →
      compute_output_shape st ish = .error .typeErrorScalarTuple) := by
  refine ⟨?_, ?_, ?_⟩
  · intro hns hish
    subst hish
    cases hdf : st.cfg.data_format <;>
      simp [compute_output_shape, hns, hdf, List.set]
  · intro s hos
    simp [compute_output_shape, hos]
  · intro n hos
    simp [compute_output_shape, hos]

/-- C7 counterexample: with a scalar fixed output shape configured, the
static output-shape query fails with a `TypeError` instead of returning
the configured shape. -/
theorem c7_scalar_query_fails :
    compute_output_shape sampleScalarFixed [some 1, some 2, some 3, some 4] =
      .error .typeErrorScalarTuple := rfl

/-- C7 witness: the three branches at concrete layers — fresh layer
(inference), layer with a cached sequence shape (verbatim), scalar
configuration (TypeError). -/
theorem c7_witness :
    compute_output_shape sampleBuilt [none, some 10, some 10, some 8] =
      .ok [Dim.static none, Dim.static (some 12), Dim.static (some 12),
        Dim.static (some 8)] ∧
    compute_output_shape sampleCalled [some 1, some 2, some 3, some 4] =
      .ok sampleCachedShape ∧
    compute_output_shape sampleScalarFixed [some 7, some 7, some 7, some 7] =
      .error .typeErrorScalarTuple := by
  have h := c7_output_shape_query sampleBuilt
    [none, some 10, some 10, some 8] none (some 10) (some 10) (some 8)
  have h2 := c7_output_shape_query sampleCalled [some 1, some 2, some 3, some 4]
    (some 1) (some 2) (some 3) (some 4)
  have h3 := c7_output_shape_query sampleScalarFixed
    [some 7, some 7, some 7, some 7] (some 7) (some 7) (some 7) (some 7)
  exact ⟨by simpa using h.1 rfl rfl, h2.2.1 sampleCachedShape rfl,
    h3.2.2 12 rfl⟩

/-- C8: for a channels_first layer with no fixed output shape, the first
invocation hands the primitive the inferred shape ordered
(batch, filters, height, width) and caches it; a later invocation finds
the cache non-empty, takes the fixed-shape branch, and hands the
primitive the cached shape permuted to (batch, height, width, filters) —
its batch slot still the first invocation's runtime batch value, and the
state unchanged. -/
theorem c8_shape_order_flips (st st' : Layer) (kern : Tensor)
    (x1 x2 : InputTensor) (oh ow : Option Nat)
    (hdf : st.cfg.data_format = .channels_first)
    (hns : st.transpose_output_shape = none)
    (hk : st.kernel = some kern)
    (hoh : oh = deconv_length ((x1.static_shape.get? 2).join)
      st.cfg.strides.1 st.cfg.kernel_size.1 st.cfg.padding)
    (how : ow = deconv_length ((x1.static_shape.get? 3).join)
      st.cfg.strides.2 st.cfg.kernel_size.2 st.cfg.padding)
    (hst' : st' = { st with transpose_output_shape := some (.seq
      [Dim.dynamic x1.runtime_batch, Dim.static (some st.cfg.filters),
       Dim.static oh, Dim.static ow]) }) :
    call st x1 = .ok (call_output st' x1 kern
        [Dim.dynamic x1.runtime_batch, Dim.static (some st.cfg.filters),
         Dim.static oh, Dim.static ow],
      [Dim.dynamic x1.runtime_batch, Dim.static (some st.cfg.filters),
       Dim.static oh, Dim.static ow], st') ∧
    call st' x2 = .ok (call_output st' x2 kern
        [Dim.dynamic x1.runtime_batch, Dim.static oh, Dim.static ow,
         Dim.static (some st.cfg.filters)],
      [Dim.dynamic x1.runtime_batch, Dim.static oh, Dim.static ow,
       Dim.static (some st.cfg.filters)], st') := by
  subst hoh how
  have hsh1 : inferred_shape st x1 =
      [Dim.dynamic x1.runtime_batch, Dim.static (some st.cfg.filters),
       Dim.static (deconv_length ((x1.static_shape.get? 2).join)
         st.cfg.strides.1 st.cfg.kernel_size.1 st.cfg.padding),
       Dim.static (deconv_length ((x1.static_shape.get? 3).join)
         st.cfg.strides.2 st.cfg.kernel_size.2 st.cfg.padding)] := by
    simp [inferred_shape, hdf]
  constructor
  · have hres : resolve_shape st x1 = .ok
        ([Dim.dynamic x1.runtime_batch, Dim.static (some st.cfg.filters),
          Dim.static (deconv_length ((x1.static_shape.get? 2).join)
            st.cfg.strides.1 st.cfg.kernel_size.1 st.cfg.padding),
          Dim.static (deconv_length ((x1.static_shape.get? 3).join)
            st.cfg.strides.2 st.cfg.kernel_size.2 st.cfg.padding)], st') := by
      simp only [resolve_shape, hns, hsh1, hst']
    exact call_of_resolve st x1 _ st' kern hres (by rw [hst']; exact hk)
  · have hro : reorder_fixed_shape st'.cfg.data_format
        [Dim.dynamic x1.runtime_batch, Dim.static (some st.cfg.filters),
         Dim.static (deconv_length ((x1.static_shape.get? 2).join)
           st.cfg.strides.1 st.cfg.kernel_size.1 st.cfg.padding),
         Dim.static (deconv_length ((x1.static_shape.get? 3).join)
           st.cfg.strides.2 st.cfg.kernel_size.2 st.cfg.padding)] = .ok
        [Dim.dynamic x1.runtime_batch,
         Dim.static (deconv_length ((x1.static_shape.get? 2).join)
           st.cfg.strides.1 st.cfg.kernel_size.1 st.cfg.padding),
         Dim.static (deconv_length ((x1.static_shape.get? 3).join)
           st.cfg.strides.2 st.cfg.kernel_size.2 st.cfg.padding),
         Dim.static (some st.cfg.filters)] := by
      have : st'.cfg.data_format = DataFormat.channels_first := by
        rw [hst']; exact hdf
      rw [this]; rfl
    have hres2 : resolve_shape st' x2 = .ok
        ([Dim.dynamic x1.runtime_batch,
          Dim.static (deconv_length ((x1.static_shape.get? 2).join)
            st.cfg.strides.1 st.cfg.kernel_size.1 st.cfg.padding),
          Dim.static (deconv_length ((x1.static_shape.get? 3).join)
            st.cfg.strides.2 st.cfg.kernel_size.2 st.cfg.padding),
          Dim.static (some st.cfg.filters)], st') := by
      rw [hst'] at hro ⊢
      simp only [resolve_shape, hro]
      simp [replace_none_batch]
    exact call_of_resolve st' x2 _ st' kern hres2 (by rw [hst']; exact hk)

/-- C8 witness: on the channels_first sample layer with 10×10 input, the
first call passes (2, 8, 12, 12) and the second call passes
(2, 12, 12, 8). -/
theorem c8_witness :
    call sampleBuiltCF sampleInputCF = .ok
      (call_output sampleCalledCF sampleInputCF
        (Tensor.transpose1023 sampleKernel) sampleShapeCF1,
       sampleShapeCF1, sampleCalledCF) ∧
    call sampleCalledCF sampleInputCF = .ok
      (call_output sampleCalledCF sampleInputCF
        (Tensor.transpose1023 sampleKernel) sampleShapeCF2,
       sampleShapeCF2, sampleCalledCF) := by
  have h := c8_shape_order_flips sampleBuiltCF sampleCalledCF
    (Tensor.transpose1023 sampleKernel) sampleInputCF sampleInputCF
    (some 12) (some 12) rfl rfl rfl rfl rfl rfl
  exact ⟨h.1, h.2⟩

/-- C10: for a layer with no fixed output shape, after a first successful
invocation the layer caches the shape that invocation inferred — whose
batch slot is that input's runtime batch value, not `None` — and every
later static output-shape query returns exactly that cached shape, for
every input-shape argument it is given. -/
theorem c10_cached_query (st : Layer) (x : InputTensor) (out : Tensor)
    (sh : List Dim) (st' : Layer)
    (hns : st.transpose_output_shape = none)
    (hc : call st x = .ok (out, sh, st')) :
    st'.transpose_output_shape = some (.seq sh) ∧
    sh.get? 0 = some (Dim.dynamic x.runtime_batch) ∧
    ∀ ish : List (Option Nat), compute_output_shape st' ish = .ok sh := by
  obtain ⟨hres, -⟩ := call_ok_elim _ _ _ _ _ hc
  simp only [resolve_shape, hns, Except.ok.injEq, Prod.mk.injEq] at hres
  obtain ⟨hsh, hst⟩ := hres
  subst hsh
  subst hst
  refine ⟨rfl, ?_, ?_⟩
  · cases hdf : st.cfg.data_format <;> simp [inferred_shape, hdf]
  · intro ish
    rfl

/-- C10 witness: after the first sample call (runtime batch 2), the query
returns the cached shape even for an unrelated 50×50 input shape
argument. -/
theorem c10_witness :
    sampleCalled.transpose_output_shape = some (.seq sampleCachedShape) ∧
    sampleCachedShape.get? 0 = some (Dim.dynamic 2) ∧
    compute_output_shape sampleCalled [some 99, some 50, some 50, some 3] =
      .ok sampleCachedShape := by
  have h := c10_cached_query sampleBuilt sampleInput sampleOutput
    sampleCachedShape sampleCalled rfl rfl
  exact ⟨h.1, h.2.1, h.2.2 [some 99, some 50, some 50, some 3]⟩

end TiedConv
